import Mathlib

/-!
Verification development for the rewatchability repository.

Shallow embedding of the core logic:
  * `scoring.py`   — per-sport piecewise calibration curves and `score_game`
  * `ledger.py`    — duplicate-suppression ledger (`already_posted`,
                     `mark_posted`, `prune_ledger`)
  * `espn_adapter.py` — the win-probability series extraction loop of
                     `fetch_wp_quick`
  * `inpredictable.py` — the PreCap date guard of `fetch_excitement_map`
  * `main.py`      — `_process_league` (per-game phase and best-of-night
                     fallback) and the `run` polling loop

Python floats are modelled as `ℚ`, Python ints as `ℤ`/`Nat`, dicts as
association lists with insert-or-update semantics, and raised exceptions as
explicit error values.
-/

/-! ## scoring.py -/

/-- Python `str.upper()` (on the ASCII sport keys used here): uppercase each
character. -/
def pyUpper (s : String) : String := String.mk (s.data.map Char.toUpper)

/-- Python `str.strip()`: drop leading and trailing whitespace. -/
def pyStrip (s : String) : String :=
  String.mk (((s.data.dropWhile Char.isWhitespace).reverse.dropWhile
    Char.isWhitespace).reverse)

structure ScoreResult where
  score : ℤ
  sport : String
  ei : ℚ
deriving DecidableEq

/-- Python's `int(round(s))` on the score value: round to nearest, ties to
even (CPython `round` on floats). `n % 2 = 0` is the evenness test. -/
def pyRound (q : ℚ) : ℤ :=
  let n : ℤ := ⌊q⌋
  let r : ℚ := q - n
  if r < 1/2 then n
  else if 1/2 < r then n + 1
  else if n % 2 = 0 then n else n + 1

/-- The shared trailing clamp of every `_score_*` function in `scoring.py`:
`if s < 40.0: s = 40.0` then `if s > 100.0: s = 100.0`. -/
def clamp40_100 (s : ℚ) : ℚ :=
  let s1 := if s < 40 then (40 : ℚ) else s
  if s1 > 100 then (100 : ℚ) else s1

/-- The piecewise band shape shared verbatim by `_score_nba`, `_score_nfl`,
`_score_mlb`, `_score_ncaaf` and `_score_ncaab` (see the "COMMON NOTES"
block in `scoring.py`: "All sports share the same 40–100 piecewise shape");
only the five anchors differ per sport. -/
def piecewise_score (a1 a2 a3 a4 a5 : ℚ) (E : ℚ) : ℚ :=
  if E ≤ a1 then 40
  else if E ≤ a2 then 40 + 30 * (E - a1) / (a2 - a1)
  else if E ≤ a3 then 70 + 20 * (E - a2) / (a3 - a2)
  else if E ≤ a4 then 90 + 9 * (E - a3) / (a4 - a3)
  else if E ≤ a5 then 99 + 1 * (E - a4) / (a5 - a4)
  else 100

def NBA_E_MIN : ℚ := 0.00536
def NBA_E_MED : ℚ := 0.16262
def NBA_E_90 : ℚ := 0.2632740
def NBA_E_99 : ℚ := 0.3418272
def NBA_E_MAX : ℚ := 0.42322

def _score_nba (e : ℚ) : ℤ :=
  pyRound (clamp40_100 (piecewise_score NBA_E_MIN NBA_E_MED NBA_E_90 NBA_E_99 NBA_E_MAX e))

def NFL_E_MIN : ℚ := 0.00984
def NFL_E_MED : ℚ := 0.087269
def NFL_E_90 : ℚ := 0.1444728
def NFL_E_99 : ℚ := 0.22292766
def NFL_E_MAX : ℚ := 0.297374

def _score_nfl (e : ℚ) : ℤ :=
  pyRound (clamp40_100 (piecewise_score NFL_E_MIN NFL_E_MED NFL_E_90 NFL_E_99 NFL_E_MAX e))

def MLB_E_MIN : ℚ := 0.00326
def MLB_E_MED : ℚ := 0.04436
def MLB_E_90 : ℚ := 0.0755340
def MLB_E_99 : ℚ := 0.1103992
def MLB_E_MAX : ℚ := 0.16694

def _score_mlb (e : ℚ) : ℤ :=
  pyRound (clamp40_100 (piecewise_score MLB_E_MIN MLB_E_MED MLB_E_90 MLB_E_99 MLB_E_MAX e))

def NCAAF_E_MIN : ℚ := 0.000026
def NCAAF_E_MED : ℚ := 0.060416
def NCAAF_E_90 : ℚ := 0.127918
def NCAAF_E_99 : ℚ := 0.1876307
def NCAAF_E_MAX : ℚ := 0.286786

def _score_ncaaf (e : ℚ) : ℤ :=
  pyRound (clamp40_100 (piecewise_score NCAAF_E_MIN NCAAF_E_MED NCAAF_E_90 NCAAF_E_99 NCAAF_E_MAX e))

def NCAAB_E_MIN : ℚ := 0.00002
def NCAAB_E_MED : ℚ := 0.07897
def NCAAB_E_90 : ℚ := 0.156834
def NCAAB_E_99 : ℚ := 0.2132926
def NCAAB_E_MAX : ℚ := 0.33728

def _score_ncaab (e : ℚ) : ℤ :=
  pyRound (clamp40_100 (piecewise_score NCAAB_E_MIN NCAAB_E_MED NCAAB_E_90 NCAAB_E_99 NCAAB_E_MAX e))

/-- `scoring.py` `score_game`: normalize the key with `.upper().strip()`,
then dispatch; unknown keys fall through to the safe floor 40. -/
def score_game (sport : String) (ei : ℚ) : ScoreResult :=
  let key := pyStrip (pyUpper sport)
  let E := ei
  let s : ℤ :=
    if key = "NBA" then _score_nba E
    else if key = "NFL" then _score_nfl E
    else if key = "MLB" then _score_mlb E
    else if key = "NCAAF" ∨ key = "CFB" then _score_ncaaf E
    else if key = "NCAAB" ∨ key = "CBB" ∨ key = "NCAAM" then _score_ncaab E
    else 40
  ⟨s, key, E⟩

/-! ## ledger.py

The ledger is Python's `dict[str, str]` `{event_id: iso_timestamp}`, modelled
as an association list with dict insert-or-update semantics (updates keep the
entry's position, new keys append — Python preserves insertion order).
Wall-clock instants are modelled as integers (seconds).
`datetime.fromisoformat` is an abstract parameter `parseTs`: it returns
`none` where Python raises (caught by the `try` around the parse), and
otherwise a `PyDatetime`, which is timezone-aware or timezone-naive.
`fromisoformat` accepts tz-naive ISO strings, and comparing the resulting
naive datetime with the aware `cutoff` in `when >= cutoff` (which sits
*outside* the `try`) raises `TypeError`; `prune_ledger` therefore returns
`Except`: `.error` models that escaping exception (the ledger is then never
cleared/updated — the raise happens before `ledger.clear()`). -/

abbrev Ledger := List (String × String)

/-- `int(os.getenv("LEDGER_DAYS", "7"))` with the variable unset. -/
def LEDGER_DAYS : ℤ := 7

def already_posted (ledger : Ledger) (event_id : String) : Bool :=
  ledger.any (fun p => p.1 == event_id)

/-- `ledger[event_id] = _now_iso()` (dict assignment). -/
def mark_posted (ledger : Ledger) (event_id now_iso : String) : Ledger :=
  if ledger.any (fun p => p.1 == event_id) then
    ledger.map (fun p => if p.1 == event_id then (event_id, now_iso) else p)
  else ledger ++ [(event_id, now_iso)]

/-- A `datetime` produced by `datetime.fromisoformat`: timezone-aware
(comparable with the aware `cutoff`; instant in seconds) or timezone-naive
(has a value, but `naive >= aware` raises `TypeError` in Python). -/
inductive PyDatetime where
  | aware : ℤ → PyDatetime
  | naive : ℤ → PyDatetime
deriving DecidableEq

/-- The `for eid, ts in ledger.items()` loop of `prune_ledger`, accumulating
`keep`: a timestamp whose parse raises is dropped (`except: continue`); an
aware timestamp is kept iff `when >= cutoff`; a naive timestamp reaches
`when >= cutoff` outside the `try` and the `TypeError` aborts the whole
call. -/
def prune_loop (parseTs : String → Option PyDatetime) (cutoff : ℤ) :
    Ledger → Ledger → Except String Ledger
  | keep, [] => Except.ok keep
  | keep, p :: rest =>
    match parseTs p.2 with
    | none => prune_loop parseTs cutoff keep rest
    | some (.naive _) =>
      Except.error
        "TypeError: cannot compare offset-naive and offset-aware datetimes"
    | some (.aware t) =>
      if cutoff ≤ t then prune_loop parseTs cutoff (keep ++ [p]) rest
      else prune_loop parseTs cutoff keep rest

/-- `prune_ledger` with `cutoff = now - timedelta(days=days)` (86400 seconds
per day): on success the ledger is replaced by `keep`
(`ledger.clear(); ledger.update(keep)`); a `TypeError` from a naive
timestamp escapes before that mutation. -/
def prune_ledger (parseTs : String → Option PyDatetime) (now_ts days : ℤ)
    (ledger : Ledger) : Except String Ledger :=
  prune_loop parseTs (now_ts - days * 86400) [] ledger

/-! ## posting_rules.should_auto_post -/

/-- Modelled from the spec: `should_auto_post` is imported by `main.py` from
`posting_rules` but absent from the source under `src/`. Spec §4.5:
"auto-surface if score ≥ a fixed threshold (70), **or** if the
broadcast-visibility field is non-empty". -/
def should_auto_post (score : ℤ) (network : String) (sport : String) : Bool :=
  decide (70 ≤ score) || !(network == "")

/-! ## espn_adapter.fetch_wp_quick — win-probability series extraction

One scoreboard point's `homeWinPercentage` field either is absent (`None`),
fails `float(...)` coercion, or coerces to a numeric value. -/

inductive WPVal where
  | missing : WPVal
  | unparseable : WPVal
  | num : ℚ → WPVal
deriving DecidableEq

/-- The series loop of `fetch_wp_quick` (`espn_adapter.py` 394–404): skip a
point whose value is `None` or fails `float` coercion, otherwise append the
coerced value. -/
def fetch_wp_series (pts : List WPVal) : List ℚ :=
  pts.foldl
    (fun series pt =>
      match pt with
      | .num v => series ++ [v]
      | _ => series)
    []

/-- Modelled from the spec (§4.1 Series Normalizer), for comparison with
`fetch_wp_series`: drop non-numeric values, divide values above 1.0 by 100,
discard values still outside [0,1], and return empty when fewer than 2
survive. -/
def normalize_series_spec (pts : List WPVal) : List ℚ :=
  let numeric := pts.foldl
    (fun acc pt => match pt with | .num v => acc ++ [v] | _ => acc) []
  let converted := numeric.map (fun v => if 1 < v then v / 100 else v)
  let survivors := converted.filter (fun v => decide (0 ≤ v) && decide (v ≤ 1))
  if survivors.length < 2 then [] else survivors

/-! ## inpredictable.fetch_excitement_map — PreCap date guard

`fetch_precap_html` and the regex parsers are I/O and are abstracted: the
function receives the result of `_parse_precap_date_iso` (`none` when the
"For Games Played on" header is missing or fails to parse) and the
`parse_precap_finished_games` string map. -/

/-- Python `key.split("@", 1)` guarded by `"@" in key`. -/
def split_once_at (key : String) : Option (String × String) :=
  match key.splitOn "@" with
  | a :: b :: rest => some (a, String.intercalate "@" (b :: rest))
  | _ => none

/-- The tuple-map construction at the end of `fetch_excitement_map`
(`inpredictable.py` 220–229): split each `"AWY@HOM"` key, strip/upper both
sides, skip blanks, and insert into the result dict. -/
def build_tuple_map (string_map : List (String × ℚ)) :
    List ((String × String) × ℚ) :=
  string_map.foldl
    (fun acc kv =>
      match split_once_at kv.1 with
      | none => acc
      | some (a, h) =>
        let away := pyUpper (pyStrip a)
        let home := pyUpper (pyStrip h)
        if away = "" ∨ home = "" then acc
        else if acc.any (fun p => p.1 == (away, home)) then
          acc.map (fun p => if p.1 == (away, home) then ((away, home), kv.2) else p)
        else acc ++ [((away, home), kv.2)])
    []

/-- `fetch_excitement_map` after the HTML fetch (`inpredictable.py` 199–231):
when `expected_date_iso` is given, return the empty map if the header date is
missing/unparseable (`header_date_iso = none`) or differs from the expected
date; otherwise build the tuple map. -/
def fetch_excitement_map (header_date_iso : Option String)
    (expected_date_iso : Option String) (string_map : List (String × ℚ)) :
    List ((String × String) × ℚ) :=
  match expected_date_iso with
  | some expected =>
    match header_date_iso with
    | none => []
    | some hd =>
      if hd ≠ expected then [] else build_tuple_map string_map
  | none => build_tuple_map string_map

/-! ## main.py — `_process_league` and the `run` loop

`get_scoreboard` (imported by `main.py`, absent from `src/`) supplies the
game dicts; a game as consumed by `_process_league` has keys `id`, `away`,
`home`, `broadcast` (possibly `None`) and `is_final`. The excitement map and
the `_now_iso()` timestamp are parameters. -/

def SPORTS : List String := ["NBA", "WNBA"]

structure Game where
  id : String
  away : Option String
  home : Option String
  broadcast : Option String
  is_final : Bool
deriving DecidableEq

/-- The ESPN-nickname → Inpredictable-code map of `main.py` 30–77. -/
def NAME_TO_INPRED : List (String × String) :=
  [("Hawks", "ATL"), ("Nets", "BKN"), ("Celtics", "BOS"), ("Hornets", "CHA"),
   ("Bulls", "CHI"), ("Cavaliers", "CLE"), ("Mavericks", "DAL"),
   ("Nuggets", "DEN"), ("Pistons", "DET"), ("Warriors", "GSW"),
   ("Rockets", "HOU"), ("Pacers", "IND"), ("Clippers", "LAC"),
   ("Lakers", "LAL"), ("Grizzlies", "MEM"), ("Heat", "MIA"), ("Bucks", "MIL"),
   ("Timberwolves", "MIN"), ("Pelicans", "NOP"), ("Knicks", "NYK"),
   ("Thunder", "OKC"), ("Magic", "ORL"), ("76ers", "PHI"), ("Suns", "PHX"),
   ("Trail Blazers", "POR"), ("Kings", "SAC"), ("Spurs", "SAS"),
   ("Raptors", "TOR"), ("Jazz", "UTA"), ("Wizards", "WAS"),
   ("Lynx", "MIN"), ("Dream", "ATL"), ("Fever", "IND"), ("Aces", "LVA"),
   ("Liberty", "NYL"), ("Sparks", "LAS"), ("Mercury", "PHX"),
   ("Storm", "SEA"), ("Valkyries", "GSV"), ("Wings", "DAL"),
   ("Mystics", "WAS"), ("Sky", "CHI"), ("Sun", "CON")]

abbrev EMap := List ((String × String) × ℚ)

/-- One entry of `scored_rows`: the tuple `(g, score_val, excite_raw,
auto_rule)`. -/
structure Row where
  game : Game
  score : ℤ
  excite : Option ℚ
  auto : Bool
deriving DecidableEq

/-- The per-game body of the `for g in games` loop (`main.py` 197–248),
ledger effects excluded: team-name → code mapping, excitement lookup,
`score_game(sport_up, excite or 0.0)`, and the auto-post decision on the
stripped broadcast string. -/
def rowOf (sport_up : String) (emap : EMap) (g : Game) : Row :=
  let away_name := g.away.getD ""
  let home_name := g.home.getD ""
  let away_code := List.lookup away_name NAME_TO_INPRED
  let home_code := List.lookup home_name NAME_TO_INPRED
  let excite_raw : Option ℚ :=
    match away_code, home_code with
    | some a, some h => List.lookup (a, h) emap
    | _, _ => none
  let raw_for_scoring := excite_raw.getD 0
  let result := score_game sport_up raw_for_scoring
  let network := pyStrip (g.broadcast.getD "")
  let auto_rule := should_auto_post result.score network sport_up
  ⟨g, result.score, excite_raw, auto_rule⟩

structure LeagueState where
  ledger : Ledger
  rows : List Row
  missing : List Game
deriving DecidableEq

/-- One iteration of the `for g in games` loop: skip non-final games; record
finals with no excitement in `finals_missing_ei`; mark not-yet-posted games
that satisfy the auto rule; append the scored row. -/
def leagueStep (sport_up : String) (emap : EMap) (now_iso : String)
    (st : LeagueState) (g : Game) : LeagueState :=
  if g.is_final then
    let row := rowOf sport_up emap g
    let missing' := if row.excite.isNone then st.missing ++ [g] else st.missing
    let ledger' :=
      if already_posted st.ledger g.id then st.ledger
      else if row.auto then mark_posted st.ledger g.id now_iso
      else st.ledger
    ⟨ledger', st.rows ++ [row], missing'⟩
  else st

def process_games (sport_up : String) (emap : EMap) (now_iso : String)
    (games : List Game) (ledger : Ledger) : LeagueState :=
  games.foldl (leagueStep sport_up emap now_iso) ⟨ledger, [], []⟩

/-- Python `max(scored_rows, key=lambda tup: tup[1])`: the first row with the
maximal score. -/
def bestRow (r : Row) (rs : List Row) : Row :=
  rs.foldl (fun b x => if b.score < x.score then x else b) r

/-- `_process_league` (`main.py` 158–310): the per-game phase followed by the
best-of-night fallback, returning the resulting ledger. -/
def process_league (sport : String) (games : List Game) (emap : EMap)
    (now_iso : String) (ledger : Ledger) : Ledger :=
  let sport_up := pyUpper sport
  if games = [] then ledger
  else
    let all_final_flag := games.all (·.is_final)
    let st := process_games sport_up emap now_iso games ledger
    match st.rows with
    | [] => st.ledger
    | r :: rs =>
      if (r :: rs).any (·.auto) then st.ledger
      else if all_final_flag = false then st.ledger
      else if st.missing ≠ [] then st.ledger
      else
        let best := bestRow r rs
        if already_posted st.ledger best.game.id then st.ledger
        else mark_posted st.ledger best.game.id now_iso

/-! ### The `run` loop (`main.py` 317–332)

Per-sport processing may raise (e.g. the `RuntimeError` from
`fetch_excitement_map`); Python's in-place ledger mutation up to the raise
point survives, so one unit of work is a function
`Ledger → Ledger × Option String`: the resulting ledger together with the
raised exception, if any. The `try/except` logs the exception and keeps the
resulting ledger. -/

/-- The `for sport in SPORTS` body with its `try/except`: process each sport
in order; an exception is only logged, the loop continues. -/
def process_sports (proc : String → Ledger → Ledger × Option String)
    (sports : List String) (ledger : Ledger) : Ledger :=
  sports.foldl (fun led s => (proc s led).1) ledger

/-- `run`'s `while True` loop, truncated to `n` iterations; `proc k` is the
behaviour of the external world in cycle `k`. Returns the final ledger and
the list of ledgers passed to `save_ledger`, one per completed cycle. -/
def run_cycles (proc : Nat → String → Ledger → Ledger × Option String)
    (sports : List String) : Nat → Ledger → Ledger × List Ledger
  | 0, led => (led, [])
  | n + 1, led =>
    let led' := process_sports (proc n) sports led
    let rest := run_cycles proc sports n led'
    (rest.1, led' :: rest.2)

/-- The ledger effect of one iteration of the per-game loop, in isolation
(used to characterize `process_games`): a not-yet-posted final game is marked
iff the auto rule fired for it. -/
def markStep (sport_up : String) (emap : EMap) (now_iso : String)
    (led : Ledger) (g : Game) : Ledger :=
  if g.is_final then
    if already_posted led g.id then led
    else if (rowOf sport_up emap g).auto then mark_posted led g.id now_iso
    else led
  else led

/-! ## Rounding, clamping and piecewise-curve lemmas -/

theorem floor_le_pyRound (q : ℚ) : ⌊q⌋ ≤ pyRound q := by
  simp only [pyRound]
  split_ifs <;> omega

theorem pyRound_le_floor_add_one (q : ℚ) : pyRound q ≤ ⌊q⌋ + 1 := by
  simp only [pyRound]
  split_ifs <;> omega

theorem pyRound_mono : Monotone pyRound := by
  intro x y hxy
  rcases lt_or_eq_of_le (Int.floor_mono hxy) with hlt | heq
  · calc pyRound x ≤ ⌊x⌋ + 1 := pyRound_le_floor_add_one x
      _ ≤ ⌊y⌋ := by omega
      _ ≤ pyRound y := floor_le_pyRound y
  · simp only [pyRound, ← heq]
    split_ifs <;> first | omega | linarith

theorem pyRound_intCast (n : ℤ) : pyRound (n : ℚ) = n := by
  simp only [pyRound, Int.floor_intCast, sub_self]
  norm_num

theorem clamp_mem (s : ℚ) : 40 ≤ clamp40_100 s ∧ clamp40_100 s ≤ 100 := by
  simp only [clamp40_100]
  split_ifs <;> constructor <;> linarith

theorem clamp_mono {s t : ℚ} (h : s ≤ t) : clamp40_100 s ≤ clamp40_100 t := by
  simp only [clamp40_100]
  split_ifs <;> linarith

/-- Every `_score_*` value is in [40,100]: the trailing clamp bounds the band
value, and rounding preserves the integer endpoints. -/
theorem score_core_range (q : ℚ) :
    40 ≤ pyRound (clamp40_100 q) ∧ pyRound (clamp40_100 q) ≤ 100 := by
  obtain ⟨h1, h2⟩ := clamp_mem q
  constructor
  · have := pyRound_mono (show ((40 : ℤ) : ℚ) ≤ clamp40_100 q by push_cast; linarith)
    rwa [pyRound_intCast] at this
  · have := pyRound_mono (show clamp40_100 q ≤ ((100 : ℤ) : ℚ) by push_cast; linarith)
    rwa [pyRound_intCast] at this

section PiecewiseLemmas

variable {a1 a2 a3 a4 a5 : ℚ}

theorem piecewise_eval1 {E : ℚ} (h1 : E ≤ a1) :
    piecewise_score a1 a2 a3 a4 a5 E = 40 := by
  unfold piecewise_score
  rw [if_pos h1]

theorem piecewise_eval2 {E : ℚ} (h1 : ¬E ≤ a1) (h2 : E ≤ a2) :
    piecewise_score a1 a2 a3 a4 a5 E = 40 + 30 * (E - a1) / (a2 - a1) := by
  unfold piecewise_score
  rw [if_neg h1, if_pos h2]

theorem piecewise_eval3 {E : ℚ} (h1 : ¬E ≤ a1) (h2 : ¬E ≤ a2) (h3 : E ≤ a3) :
    piecewise_score a1 a2 a3 a4 a5 E = 70 + 20 * (E - a2) / (a3 - a2) := by
  unfold piecewise_score
  rw [if_neg h1, if_neg h2, if_pos h3]

theorem piecewise_eval4 {E : ℚ} (h1 : ¬E ≤ a1) (h2 : ¬E ≤ a2) (h3 : ¬E ≤ a3)
    (h4 : E ≤ a4) :
    piecewise_score a1 a2 a3 a4 a5 E = 90 + 9 * (E - a3) / (a4 - a3) := by
  unfold piecewise_score
  rw [if_neg h1, if_neg h2, if_neg h3, if_pos h4]

theorem piecewise_eval5 {E : ℚ} (h1 : ¬E ≤ a1) (h2 : ¬E ≤ a2) (h3 : ¬E ≤ a3)
    (h4 : ¬E ≤ a4) (h5 : E ≤ a5) :
    piecewise_score a1 a2 a3 a4 a5 E = 99 + 1 * (E - a4) / (a5 - a4) := by
  unfold piecewise_score
  rw [if_neg h1, if_neg h2, if_neg h3, if_neg h4, if_pos h5]

theorem piecewise_ge_40 (h12 : a1 < a2) (h23 : a2 < a3) (h34 : a3 < a4)
    (h45 : a4 < a5) (E : ℚ) : 40 ≤ piecewise_score a1 a2 a3 a4 a5 E := by
  unfold piecewise_score
  split_ifs with h1 h2 h3 h4 h5
  · linarith
  · have : (0 : ℚ) ≤ 30 * (E - a1) / (a2 - a1) :=
      div_nonneg (by linarith) (by linarith)
    linarith
  · have : (0 : ℚ) ≤ 20 * (E - a2) / (a3 - a2) :=
      div_nonneg (by linarith) (by linarith)
    linarith
  · have : (0 : ℚ) ≤ 9 * (E - a3) / (a4 - a3) :=
      div_nonneg (by linarith) (by linarith)
    linarith
  · have : (0 : ℚ) ≤ 1 * (E - a4) / (a5 - a4) :=
      div_nonneg (by linarith) (by linarith)
    linarith
  · linarith

theorem piecewise_le_70 (h12 : a1 < a2) {E : ℚ} (hE : E ≤ a2) :
    piecewise_score a1 a2 a3 a4 a5 E ≤ 70 := by
  unfold piecewise_score
  split_ifs with h1 h2 h3 h4 h5
  · linarith
  · have : 30 * (E - a1) / (a2 - a1) ≤ 30 := by
      rw [div_le_iff (by linarith)]
      linarith
    linarith
  all_goals linarith

theorem piecewise_le_90 (h12 : a1 < a2) (h23 : a2 < a3) {E : ℚ}
    (hE : E ≤ a3) : piecewise_score a1 a2 a3 a4 a5 E ≤ 90 := by
  unfold piecewise_score
  split_ifs with h1 h2 h3 h4 h5
  · linarith
  · have : 30 * (E - a1) / (a2 - a1) ≤ 30 := by
      rw [div_le_iff (by linarith)]
      linarith
    linarith
  · have : 20 * (E - a2) / (a3 - a2) ≤ 20 := by
      rw [div_le_iff (by linarith)]
      linarith
    linarith
  all_goals linarith

theorem piecewise_le_99 (h12 : a1 < a2) (h23 : a2 < a3) (h34 : a3 < a4)
    {E : ℚ} (hE : E ≤ a4) : piecewise_score a1 a2 a3 a4 a5 E ≤ 99 := by
  unfold piecewise_score
  split_ifs with h1 h2 h3 h4 h5
  · linarith
  · have : 30 * (E - a1) / (a2 - a1) ≤ 30 := by
      rw [div_le_iff (by linarith)]
      linarith
    linarith
  · have : 20 * (E - a2) / (a3 - a2) ≤ 20 := by
      rw [div_le_iff (by linarith)]
      linarith
    linarith
  · have : 9 * (E - a3) / (a4 - a3) ≤ 9 := by
      rw [div_le_iff (by linarith)]
      linarith
    linarith
  all_goals linarith

theorem piecewise_le_100 (h12 : a1 < a2) (h23 : a2 < a3) (h34 : a3 < a4)
    (h45 : a4 < a5) (E : ℚ) : piecewise_score a1 a2 a3 a4 a5 E ≤ 100 := by
  unfold piecewise_score
  split_ifs with h1 h2 h3 h4 h5
  · linarith
  · have : 30 * (E - a1) / (a2 - a1) ≤ 30 := by
      rw [div_le_iff (by linarith)]
      linarith
    linarith
  · have : 20 * (E - a2) / (a3 - a2) ≤ 20 := by
      rw [div_le_iff (by linarith)]
      linarith
    linarith
  · have : 9 * (E - a3) / (a4 - a3) ≤ 9 := by
      rw [div_le_iff (by linarith)]
      linarith
    linarith
  · have : 1 * (E - a4) / (a5 - a4) ≤ 1 := by
      rw [div_le_iff (by linarith)]
      linarith
    linarith
  · linarith

theorem piecewise_ge_70 (h12 : a1 < a2) (h23 : a2 < a3) (h34 : a3 < a4)
    (h45 : a4 < a5) {E : ℚ} (hE : a2 < E) : 70 ≤ piecewise_score a1 a2 a3 a4 a5 E := by
  unfold piecewise_score
  split_ifs with h1 h2 h3 h4 h5
  · linarith
  · linarith
  · have : (0 : ℚ) ≤ 20 * (E - a2) / (a3 - a2) :=
      div_nonneg (by linarith) (by linarith)
    linarith
  · have : (0 : ℚ) ≤ 9 * (E - a3) / (a4 - a3) :=
      div_nonneg (by linarith) (by linarith)
    linarith
  · have : (0 : ℚ) ≤ 1 * (E - a4) / (a5 - a4) :=
      div_nonneg (by linarith) (by linarith)
    linarith
  · linarith

theorem piecewise_ge_90 (h12 : a1 < a2) (h23 : a2 < a3) (h34 : a3 < a4)
    (h45 : a4 < a5) {E : ℚ} (hE : a3 < E) : 90 ≤ piecewise_score a1 a2 a3 a4 a5 E := by
  unfold piecewise_score
  split_ifs with h1 h2 h3 h4 h5
  · linarith
  · linarith
  · linarith
  · have : (0 : ℚ) ≤ 9 * (E - a3) / (a4 - a3) :=
      div_nonneg (by linarith) (by linarith)
    linarith
  · have : (0 : ℚ) ≤ 1 * (E - a4) / (a5 - a4) :=
      div_nonneg (by linarith) (by linarith)
    linarith
  · linarith

theorem piecewise_ge_99 (h12 : a1 < a2) (h23 : a2 < a3) (h34 : a3 < a4)
    (h45 : a4 < a5) {E : ℚ} (hE : a4 < E) :
    99 ≤ piecewise_score a1 a2 a3 a4 a5 E := by
  unfold piecewise_score
  split_ifs with h1 h2 h3 h4 h5
  · linarith
  · linarith
  · linarith
  · linarith
  · have : (0 : ℚ) ≤ 1 * (E - a4) / (a5 - a4) :=
      div_nonneg (by linarith) (by linarith)
    linarith
  · linarith

theorem piecewise_eq_100 (h12 : a1 < a2) (h23 : a2 < a3) (h34 : a3 < a4)
    (h45 : a4 < a5) {E : ℚ} (hE : a5 < E) :
    piecewise_score a1 a2 a3 a4 a5 E = 100 := by
  unfold piecewise_score
  rw [if_neg (by linarith), if_neg (by linarith), if_neg (by linarith),
    if_neg (by linarith), if_neg (by linarith)]

theorem piecewise_mono (h12 : a1 < a2) (h23 : a2 < a3) (h34 : a3 < a4)
    (h45 : a4 < a5) {x y : ℚ} (hxy : x ≤ y) :
    piecewise_score a1 a2 a3 a4 a5 x ≤ piecewise_score a1 a2 a3 a4 a5 y := by
  rcases le_or_lt x a1 with hx1 | hx1
  · rw [piecewise_eval1 hx1]
    exact piecewise_ge_40 h12 h23 h34 h45 y
  rcases le_or_lt x a2 with hx2 | hx2
  · rcases le_or_lt y a2 with hy2 | hy2
    · rw [piecewise_eval2 (not_le.mpr hx1) hx2,
        piecewise_eval2 (not_le.mpr (lt_of_lt_of_le hx1 hxy)) hy2]
      have : 30 * (x - a1) / (a2 - a1) ≤ 30 * (y - a1) / (a2 - a1) :=
        (div_le_div_right (by linarith)).mpr (by linarith)
      linarith
    · exact le_trans (piecewise_le_70 h12 hx2)
        (piecewise_ge_70 h12 h23 h34 h45 hy2)
  rcases le_or_lt x a3 with hx3 | hx3
  · rcases le_or_lt y a3 with hy3 | hy3
    · rw [piecewise_eval3 (not_le.mpr (lt_trans h12 hx2)) (not_le.mpr hx2) hx3,
        piecewise_eval3 (not_le.mpr (lt_trans h12 (lt_of_lt_of_le hx2 hxy)))
          (not_le.mpr (lt_of_lt_of_le hx2 hxy)) hy3]
      have : 20 * (x - a2) / (a3 - a2) ≤ 20 * (y - a2) / (a3 - a2) :=
        (div_le_div_right (by linarith)).mpr (by linarith)
      linarith
    · exact le_trans (piecewise_le_90 h12 h23 hx3) (piecewise_ge_90 h12 h23 h34 h45 hy3)
  rcases le_or_lt x a4 with hx4 | hx4
  · rcases le_or_lt y a4 with hy4 | hy4
    · rw [piecewise_eval4 (not_le.mpr (lt_trans (lt_trans h12 h23) hx3))
        (not_le.mpr (lt_trans h23 hx3)) (not_le.mpr hx3) hx4,
        piecewise_eval4
          (not_le.mpr (lt_trans (lt_trans h12 h23) (lt_of_lt_of_le hx3 hxy)))
          (not_le.mpr (lt_trans h23 (lt_of_lt_of_le hx3 hxy)))
          (not_le.mpr (lt_of_lt_of_le hx3 hxy)) hy4]
      have : 9 * (x - a3) / (a4 - a3) ≤ 9 * (y - a3) / (a4 - a3) :=
        (div_le_div_right (by linarith)).mpr (by linarith)
      linarith
    · exact le_trans (piecewise_le_99 h12 h23 h34 hx4) (piecewise_ge_99 h12 h23 h34 h45 hy4)
  rcases le_or_lt x a5 with hx5 | hx5
  · rcases le_or_lt y a5 with hy5 | hy5
    · rw [piecewise_eval5 (not_le.mpr (by linarith)) (not_le.mpr (by linarith))
        (not_le.mpr (by linarith)) (not_le.mpr hx4) hx5,
        piecewise_eval5 (not_le.mpr (by linarith)) (not_le.mpr (by linarith))
          (not_le.mpr (by linarith)) (not_le.mpr (by linarith)) hy5]
      have : 1 * (x - a4) / (a5 - a4) ≤ 1 * (y - a4) / (a5 - a4) :=
        (div_le_div_right (by linarith)).mpr (by linarith)
      linarith
    · rw [piecewise_eq_100 h12 h23 h34 h45 hy5]
      exact piecewise_le_100 h12 h23 h34 h45 x
  · rw [piecewise_eq_100 h12 h23 h34 h45 hx5,
      piecewise_eq_100 h12 h23 h34 h45 (lt_of_lt_of_le hx5 hxy)]

end PiecewiseLemmas

/-! ## Dispatch lemmas for `score_game` on the five canonical keys -/

theorem sg_nba (e : ℚ) : (score_game "NBA" e).score = _score_nba e := by
  have h : pyStrip (pyUpper "NBA") = "NBA" := by decide
  simp [score_game, h]

theorem sg_nfl (e : ℚ) : (score_game "NFL" e).score = _score_nfl e := by
  have h : pyStrip (pyUpper "NFL") = "NFL" := by decide
  simp [score_game, h]

theorem sg_mlb (e : ℚ) : (score_game "MLB" e).score = _score_mlb e := by
  have h : pyStrip (pyUpper "MLB") = "MLB" := by decide
  simp [score_game, h]

theorem sg_ncaaf (e : ℚ) : (score_game "NCAAF" e).score = _score_ncaaf e := by
  have h : pyStrip (pyUpper "NCAAF") = "NCAAF" := by decide
  simp [score_game, h]

theorem sg_ncaab (e : ℚ) : (score_game "NCAAB" e).score = _score_ncaab e := by
  have h : pyStrip (pyUpper "NCAAB") = "NCAAB" := by decide
  simp [score_game, h]

/-- C1: each configured sport curve hits the exact band boundaries
40/70/90/99/100 at its five anchors. -/
theorem score_anchor_boundaries :
    (score_game "NBA" NBA_E_MIN).score = 40 ∧
    (score_game "NBA" NBA_E_MED).score = 70 ∧
    (score_game "NBA" NBA_E_90).score = 90 ∧
    (score_game "NBA" NBA_E_99).score = 99 ∧
    (score_game "NBA" NBA_E_MAX).score = 100 ∧
    (score_game "NFL" NFL_E_MIN).score = 40 ∧
    (score_game "NFL" NFL_E_MED).score = 70 ∧
    (score_game "NFL" NFL_E_90).score = 90 ∧
    (score_game "NFL" NFL_E_99).score = 99 ∧
    (score_game "NFL" NFL_E_MAX).score = 100 ∧
    (score_game "MLB" MLB_E_MIN).score = 40 ∧
    (score_game "MLB" MLB_E_MED).score = 70 ∧
    (score_game "MLB" MLB_E_90).score = 90 ∧
    (score_game "MLB" MLB_E_99).score = 99 ∧
    (score_game "MLB" MLB_E_MAX).score = 100 ∧
    (score_game "NCAAF" NCAAF_E_MIN).score = 40 ∧
    (score_game "NCAAF" NCAAF_E_MED).score = 70 ∧
    (score_game "NCAAF" NCAAF_E_90).score = 90 ∧
    (score_game "NCAAF" NCAAF_E_99).score = 99 ∧
    (score_game "NCAAF" NCAAF_E_MAX).score = 100 ∧
    (score_game "NCAAB" NCAAB_E_MIN).score = 40 ∧
    (score_game "NCAAB" NCAAB_E_MED).score = 70 ∧
    (score_game "NCAAB" NCAAB_E_90).score = 90 ∧
    (score_game "NCAAB" NCAAB_E_99).score = 99 ∧
    (score_game "NCAAB" NCAAB_E_MAX).score = 100 := by
  refine ⟨?_, ?_, ?_, ?_, ?_, ?_, ?_, ?_, ?_, ?_, ?_, ?_, ?_, ?_, ?_, ?_, ?_,
    ?_, ?_, ?_, ?_, ?_, ?_, ?_, ?_⟩ <;>
    simp only [sg_nba, sg_nfl, sg_mlb, sg_ncaaf, sg_ncaab] <;>
    norm_num [_score_nba, _score_nfl, _score_mlb, _score_ncaaf, _score_ncaab,
      piecewise_score, clamp40_100, pyRound,
      NBA_E_MIN, NBA_E_MED, NBA_E_90, NBA_E_99, NBA_E_MAX,
      NFL_E_MIN, NFL_E_MED, NFL_E_90, NFL_E_99, NFL_E_MAX,
      MLB_E_MIN, MLB_E_MED, MLB_E_90, MLB_E_99, MLB_E_MAX,
      NCAAF_E_MIN, NCAAF_E_MED, NCAAF_E_90, NCAAF_E_99, NCAAF_E_MAX,
      NCAAB_E_MIN, NCAAB_E_MED, NCAAB_E_90, NCAAB_E_99, NCAAB_E_MAX]

/-! ## Monotonicity and range of the scoring engine -/

theorem score_nba_mono {x y : ℚ} (h : x ≤ y) : _score_nba x ≤ _score_nba y :=
  pyRound_mono (clamp_mono (piecewise_mono
    (by norm_num [NBA_E_MIN, NBA_E_MED]) (by norm_num [NBA_E_MED, NBA_E_90])
    (by norm_num [NBA_E_90, NBA_E_99]) (by norm_num [NBA_E_99, NBA_E_MAX]) h))

theorem score_nfl_mono {x y : ℚ} (h : x ≤ y) : _score_nfl x ≤ _score_nfl y :=
  pyRound_mono (clamp_mono (piecewise_mono
    (by norm_num [NFL_E_MIN, NFL_E_MED]) (by norm_num [NFL_E_MED, NFL_E_90])
    (by norm_num [NFL_E_90, NFL_E_99]) (by norm_num [NFL_E_99, NFL_E_MAX]) h))

theorem score_mlb_mono {x y : ℚ} (h : x ≤ y) : _score_mlb x ≤ _score_mlb y :=
  pyRound_mono (clamp_mono (piecewise_mono
    (by norm_num [MLB_E_MIN, MLB_E_MED]) (by norm_num [MLB_E_MED, MLB_E_90])
    (by norm_num [MLB_E_90, MLB_E_99]) (by norm_num [MLB_E_99, MLB_E_MAX]) h))

theorem score_ncaaf_mono {x y : ℚ} (h : x ≤ y) :
    _score_ncaaf x ≤ _score_ncaaf y :=
  pyRound_mono (clamp_mono (piecewise_mono
    (by norm_num [NCAAF_E_MIN, NCAAF_E_MED])
    (by norm_num [NCAAF_E_MED, NCAAF_E_90])
    (by norm_num [NCAAF_E_90, NCAAF_E_99])
    (by norm_num [NCAAF_E_99, NCAAF_E_MAX]) h))

theorem score_ncaab_mono {x y : ℚ} (h : x ≤ y) :
    _score_ncaab x ≤ _score_ncaab y :=
  pyRound_mono (clamp_mono (piecewise_mono
    (by norm_num [NCAAB_E_MIN, NCAAB_E_MED])
    (by norm_num [NCAAB_E_MED, NCAAB_E_90])
    (by norm_num [NCAAB_E_90, NCAAB_E_99])
    (by norm_num [NCAAB_E_99, NCAAB_E_MAX]) h))

/-- C2: for a fixed sport key the score is non-decreasing in the excitement
index (proved for every sport string: each recognized curve is monotone and
the unknown-sport branch is constant). -/
theorem score_monotone (sport : String) (ei1 ei2 : ℚ) (h : ei1 < ei2) :
    (score_game sport ei1).score ≤ (score_game sport ei2).score := by
  have hle : ei1 ≤ ei2 := le_of_lt h
  simp only [score_game]
  split_ifs
  · exact score_nba_mono hle
  · exact score_nfl_mono hle
  · exact score_mlb_mono hle
  · exact score_ncaaf_mono hle
  · exact score_ncaab_mono hle
  · exact le_refl 40

theorem score_monotone_witness :
    (score_game "NBA" 0).score ≤ (score_game "NBA" 1).score :=
  score_monotone "NBA" 0 1 (by norm_num)

/-- C6: for every sport string and every excitement value the score lies in
[40,100] (in particular for every recognized sport and non-negative EI,
including EI beyond `E_max`). -/
theorem score_range_clamp (sport : String) (ei : ℚ) :
    40 ≤ (score_game sport ei).score ∧ (score_game sport ei).score ≤ 100 := by
  simp only [score_game]
  split_ifs
  · exact score_core_range _
  · exact score_core_range _
  · exact score_core_range _
  · exact score_core_range _
  · exact score_core_range _
  · exact ⟨le_refl 40, by norm_num⟩

/-- C7: a sport key that is not one of the recognized keys after
upper-casing and stripping scores the floor 40 (the function is total: no
exception is raised). -/
theorem unknown_sport_floor (sport : String) (ei : ℚ)
    (h : pyStrip (pyUpper sport) ∉
      ["NBA", "NFL", "MLB", "NCAAF", "CFB", "NCAAB", "CBB", "NCAAM"]) :
    (score_game sport ei).score = 40 := by
  simp only [List.mem_cons, List.mem_singleton, not_or] at h
  obtain ⟨h1, h2, h3, h4, h5, h6, h7, h8⟩ := h
  simp only [score_game]
  rw [if_neg h1, if_neg h2, if_neg h3, if_neg (by tauto), if_neg (by tauto)]

theorem unknown_sport_floor_witness : (score_game "XFL" 5).score = 40 :=
  unknown_sport_floor "XFL" 5 (by decide)

/-! ## Ledger invariants -/

theorem prune_loop_ok (parseTs : String → Option PyDatetime) (cutoff : ℤ)
    (led : Ledger) (keep : Ledger)
    (h : ∀ p ∈ led, ∀ t, parseTs p.2 ≠ some (PyDatetime.naive t)) :
    prune_loop parseTs cutoff keep led
      = Except.ok (keep ++ led.filter (fun p =>
          match parseTs p.2 with
          | some (PyDatetime.aware t) => decide (cutoff ≤ t)
          | _ => false)) := by
  induction led generalizing keep with
  | nil => simp [prune_loop]
  | cons p rest ih =>
    have hrest : ∀ q ∈ rest, ∀ t, parseTs q.2 ≠ some (PyDatetime.naive t) :=
      fun q hq => h q (List.mem_cons_of_mem _ hq)
    rcases hpt : parseTs p.2 with _ | d
    · simp [prune_loop, hpt, List.filter_cons, ih _ hrest]
    · cases d with
      | naive t => exact absurd hpt (h p (List.mem_cons_self _ _) t)
      | aware t =>
        by_cases hc : cutoff ≤ t
        · simp [prune_loop, hpt, hc, List.filter_cons, ih _ hrest]
        · simp [prune_loop, hpt, hc, List.filter_cons, ih _ hrest]

theorem prune_loop_raises (parseTs : String → Option PyDatetime) (cutoff : ℤ)
    (pre post : Ledger) (q : String × String) (keep : Ledger) (t0 : ℤ)
    (hpre : ∀ p ∈ pre, ∀ t, parseTs p.2 ≠ some (PyDatetime.naive t))
    (hq : parseTs q.2 = some (PyDatetime.naive t0)) :
    prune_loop parseTs cutoff keep (pre ++ q :: post)
      = Except.error
          "TypeError: cannot compare offset-naive and offset-aware datetimes"
    := by
  revert hpre
  induction pre generalizing keep with
  | nil =>
    intro _
    simp [prune_loop, hq]
  | cons r rest ih =>
    intro hpre
    have hrest : ∀ p ∈ rest, ∀ t, parseTs p.2 ≠ some (PyDatetime.naive t) :=
      fun p hp => hpre p (List.mem_cons_of_mem _ hp)
    rcases hrt : parseTs r.2 with _ | d
    · simpa [prune_loop, hrt] using ih _ hrest
    · cases d with
      | naive t => exact absurd hrt (hpre r (List.mem_cons_self _ _) t)
      | aware t =>
        by_cases hc : cutoff ≤ t
        · simpa [prune_loop, hrt, hc] using ih _ hrest
        · simpa [prune_loop, hrt, hc] using ih _ hrest

/-- C5 counterexample: the timestamp `"2030-01-01T00:00:00"` is tz-naive but
parses fine (`fromisoformat` succeeds, so it does not "fail ISO-8601
parsing"), yet `prune_ledger` neither keeps nor removes the entry: the
`when >= cutoff` comparison sits outside the `try` and raises `TypeError`,
so the call returns no pruned ledger at all. -/
theorem prune_naive_timestamp_counterexample :
    (fun s => if s = "2030-01-01T00:00:00"
        then some (PyDatetime.naive 1893456000) else none)
      "2030-01-01T00:00:00" = some (PyDatetime.naive 1893456000)
    ∧ prune_ledger
        (fun s => if s = "2030-01-01T00:00:00"
          then some (PyDatetime.naive 1893456000) else none)
        1000000 7 [("evt401", "2030-01-01T00:00:00")]
      = Except.error
          "TypeError: cannot compare offset-naive and offset-aware datetimes"
    := ⟨rfl, rfl⟩

/-- C5 amended: marking suppresses an id. When every entry's timestamp
either fails parsing or parses to a timezone-aware datetime (as all
timestamps the program itself writes do), pruning succeeds and keeps exactly
the entries whose aware timestamp satisfies `when >= cutoff`
(`cutoff = now - days`, default retention `LEDGER_DAYS = 7` days), entries
and order unchanged; an id whose entries are all older than the cutoff is
then eligible again. But one entry whose timestamp parses to a
timezone-naive datetime makes `when >= cutoff` raise `TypeError`, which
escapes `prune_ledger` (the `try` wraps only `fromisoformat`), so that call
prunes nothing. -/
theorem ledger_invariants (parseTs : String → Option PyDatetime)
    (now_ts days : ℤ) (led pre post : Ledger) (q : String × String) (t0 : ℤ)
    (id now_iso : String) :
    already_posted (mark_posted led id now_iso) id = true
    ∧ ((∀ p ∈ led, ∀ t, parseTs p.2 ≠ some (PyDatetime.naive t)) →
        prune_ledger parseTs now_ts days led
          = Except.ok (led.filter (fun p =>
              match parseTs p.2 with
              | some (PyDatetime.aware t) =>
                decide (now_ts - days * 86400 ≤ t)
              | _ => false)))
    ∧ ((∀ p ∈ led, p.1 = id →
          ∀ t, parseTs p.2 = some (PyDatetime.aware t) →
            t < now_ts - days * 86400) →
        already_posted (led.filter (fun p =>
          match parseTs p.2 with
          | some (PyDatetime.aware t) => decide (now_ts - days * 86400 ≤ t)
          | _ => false)) id = false)
    ∧ ((∀ p ∈ pre, ∀ t, parseTs p.2 ≠ some (PyDatetime.naive t)) →
        parseTs q.2 = some (PyDatetime.naive t0) →
        prune_ledger parseTs now_ts days (pre ++ q :: post)
          = Except.error
              "TypeError: cannot compare offset-naive and offset-aware datetimes")
    ∧ LEDGER_DAYS = 7 := by
  refine ⟨?_, ?_, ?_, ?_, rfl⟩
  · simp only [mark_posted, already_posted]
    split_ifs with h
    · rw [List.any_eq_true] at h ⊢
      obtain ⟨p, hp, hpid⟩ := h
      refine ⟨(id, now_iso), ?_, by simp⟩
      rw [List.mem_map]
      exact ⟨p, hp, if_pos hpid⟩
    · simp
  · intro hno
    have h := prune_loop_ok parseTs (now_ts - days * 86400) led [] hno
    rw [List.nil_append] at h
    exact h
  · intro hall
    rw [Bool.eq_false_iff]
    intro hany
    rw [already_posted, List.any_eq_true] at hany
    obtain ⟨p, hp, hpid⟩ := hany
    rw [List.mem_filter] at hp
    obtain ⟨hmem, hkeep⟩ := hp
    rcases hpt : parseTs p.2 with _ | d
    · rw [hpt] at hkeep
      simp at hkeep
    · cases d with
      | naive t =>
        rw [hpt] at hkeep
        simp at hkeep
      | aware t =>
        have hlt := hall p hmem (by simpa using hpid) t hpt
        rw [hpt] at hkeep
        simp only [decide_eq_true_eq] at hkeep
        linarith
  · intro hpre hq
    exact prune_loop_raises parseTs _ pre post q [] t0 hpre hq

theorem ledger_invariants_witness :
    already_posted
      (mark_posted [] "evt401" "2025-12-01T00:00:00+00:00") "evt401" = true
    ∧ prune_ledger
        (fun s => if s = "old" then some (PyDatetime.aware 100)
          else if s = "naive" then some (PyDatetime.naive 200) else none)
        1000000 7 [("evt401", "old")]
      = Except.ok []
    ∧ already_posted
        ([("evt401", "old")].filter (fun p =>
          match (fun s => if s = "old" then some (PyDatetime.aware 100)
              else if s = "naive" then some (PyDatetime.naive 200) else none)
              p.2 with
          | some (PyDatetime.aware t) => decide (1000000 - 7 * 86400 ≤ t)
          | _ => false)) "evt401" = false
    ∧ prune_ledger
        (fun s => if s = "old" then some (PyDatetime.aware 100)
          else if s = "naive" then some (PyDatetime.naive 200) else none)
        1000000 7 [("evt402", "naive")]
      = Except.error
          "TypeError: cannot compare offset-naive and offset-aware datetimes"
    := by
  refine ⟨?_, ?_, ?_, ?_⟩
  · exact (ledger_invariants
      (fun s => if s = "old" then some (PyDatetime.aware 100)
        else if s = "naive" then some (PyDatetime.naive 200) else none)
      1000000 7 [] [] [] ("x", "x") 0 "evt401"
      "2025-12-01T00:00:00+00:00").1
  · have h2 := (ledger_invariants
      (fun s => if s = "old" then some (PyDatetime.aware 100)
        else if s = "naive" then some (PyDatetime.naive 200) else none)
      1000000 7 [("evt401", "old")] [] [] ("x", "x") 0 "evt401" "ts").2.1
    rw [h2 ?_]
    · rfl
    · intro p hp t heq
      rw [List.mem_singleton] at hp
      subst hp
      simp at heq
  · refine (ledger_invariants
      (fun s => if s = "old" then some (PyDatetime.aware 100)
        else if s = "naive" then some (PyDatetime.naive 200) else none)
      1000000 7 [("evt401", "old")] [] [] ("x", "x") 0 "evt401"
      "ts").2.2.1 ?_
    intro p hp _ t ht
    rw [List.mem_singleton] at hp
    subst hp
    norm_num at ht
    omega
  · refine (ledger_invariants
      (fun s => if s = "old" then some (PyDatetime.aware 100)
        else if s = "naive" then some (PyDatetime.naive 200) else none)
      1000000 7 [] [] [] ("evt402", "naive") 200 "evt401"
      "ts").2.2.2.1 ?_ rfl
    intro p hp
    exact absurd hp (List.not_mem_nil p)

/-! ## Win-probability series extraction -/

theorem fetch_wp_series_go (pts : List WPVal) (acc : List ℚ) :
    pts.foldl
      (fun series pt =>
        match pt with
        | .num v => series ++ [v]
        | _ => series) acc
      = acc ++ pts.filterMap
          (fun pt => match pt with | .num v => some v | _ => none) := by
  induction pts generalizing acc with
  | nil => simp
  | cons p ps ih =>
    cases p <;> simp [List.foldl_cons, ih]

/-- C8 counterexample: on the whole-percent style input `[50, 62, 48]` the
code returns the values unconverted (and a singleton above 1.0 is returned
as a 1-element series, not dropped), while the spec's normalizer yields
`[0.5, 0.62, 0.48]`. -/
theorem wp_normalizer_counterexample :
    fetch_wp_series [.num 50, .num 62, .num 48] = [50, 62, 48]
    ∧ normalize_series_spec [.num 50, .num 62, .num 48]
        = [1/2, 31/50, 12/25]
    ∧ fetch_wp_series [.num 50, .num 62, .num 48]
        ≠ normalize_series_spec [.num 50, .num 62, .num 48]
    ∧ fetch_wp_series [.num (3/2)] = [3/2]
    ∧ normalize_series_spec [.num (3/2)] = [] := by
  refine ⟨rfl, ?_, ?_, rfl, ?_⟩
  · norm_num [normalize_series_spec]
  · norm_num [fetch_wp_series, normalize_series_spec]
  · norm_num [normalize_series_spec]

/-- C8 amended: the extraction loop of `fetch_wp_quick` drops exactly the
points whose value is missing or fails numeric coercion and keeps the
surviving values unchanged in their original order (no percent conversion,
no range filter, no minimum-length rule), never raising. -/
theorem wp_series_extraction (pts : List WPVal) :
    fetch_wp_series pts =
      pts.filterMap (fun pt => match pt with | .num v => some v | _ => none) := by
  simpa using fetch_wp_series_go pts []

/-! ## PreCap date guard -/

/-- C10: with an expected date supplied, a missing/unparseable header date or
a mismatched header date yields the empty excitement map; with no expected
date the guard is disengaged (as in `main.py`'s call). -/
theorem precap_date_guard (d hd : String) (sm : List (String × ℚ)) :
    fetch_excitement_map none (some d) sm = []
    ∧ (hd ≠ d → fetch_excitement_map (some hd) (some d) sm = [])
    ∧ fetch_excitement_map none none sm = build_tuple_map sm := by
  refine ⟨rfl, fun h => ?_, rfl⟩
  simp [fetch_excitement_map, h]

theorem precap_date_guard_witness :
    fetch_excitement_map (some "2025-01-02") (some "2025-01-01")
      [("ATL@BOS", 5)] = [] :=
  (precap_date_guard "2025-01-01" "2025-01-02" [("ATL@BOS", 5)]).2.1
    (by decide)

/-! ## The run loop survives per-sport exceptions -/

/-- C9: an exception raised while processing one sport (returned as the
`some err` component) is caught by the per-sport `try/except`: the remaining
sports of the cycle are still processed from the ledger state left behind,
and every one of the `n` cycles hands its ledger to `save_ledger` (one save
per cycle, so no failure aborts the loop). -/
theorem run_loop_resilient
    (p : String → Ledger → Ledger × Option String)
    (proc : Nat → String → Ledger → Ledger × Option String)
    (sports pre rest : List String) (s err : String) (led led0 : Ledger)
    (n : Nat)
    (hraise : (p s (process_sports p pre led)).2 = some err) :
    process_sports p (pre ++ s :: rest) led
      = process_sports p rest (p s (process_sports p pre led)).1
    ∧ (run_cycles proc sports n led0).2.length = n := by
  constructor
  · simp [process_sports, List.foldl_append]
  · induction n generalizing led0 with
    | zero => rfl
    | succ k ih => simp [run_cycles, ih]

theorem run_loop_resilient_witness :
    process_sports (fun _ l => (l, some "PreCap fetch failed"))
        (["NBA"] ++ "WNBA" :: []) []
      = process_sports (fun _ l => (l, some "PreCap fetch failed")) []
          ((fun (_ : String) (l : Ledger) => (l, some "PreCap fetch failed"))
            "WNBA"
            (process_sports (fun _ l => (l, some "PreCap fetch failed"))
              ["NBA"] [])).1
    ∧ (run_cycles (fun _ _ l => (l, some "PreCap fetch failed"))
        SPORTS 3 []).2.length = 3 :=
  run_loop_resilient (fun _ l => (l, some "PreCap fetch failed"))
    (fun _ _ l => (l, some "PreCap fetch failed")) SPORTS ["NBA"] []
    "WNBA" "PreCap fetch failed" [] [] 3 rfl

/-! ## Characterization of the per-game phase and the fallback -/

theorem process_games_go (sport_up : String) (emap : EMap) (now_iso : String)
    (games : List Game) (init : LeagueState) :
    games.foldl (leagueStep sport_up emap now_iso) init =
      ⟨games.foldl (markStep sport_up emap now_iso) init.ledger,
       init.rows ++ (games.filter (·.is_final)).map (rowOf sport_up emap),
       init.missing ++ games.filter
         (fun g => g.is_final && (rowOf sport_up emap g).excite.isNone)⟩ := by
  induction games generalizing init with
  | nil => simp
  | cons g gs ih =>
    rw [List.foldl_cons, List.foldl_cons, ih]
    cases hg : g.is_final with
    | false => simp [leagueStep, markStep, hg]
    | true =>
      cases hm : (rowOf sport_up emap g).excite.isNone with
      | false => simp [leagueStep, markStep, hg, hm]
      | true => simp [leagueStep, markStep, hg, hm]

theorem process_games_parts (sport_up : String) (emap : EMap)
    (now_iso : String) (games : List Game) (ledger : Ledger) :
    process_games sport_up emap now_iso games ledger =
      ⟨games.foldl (markStep sport_up emap now_iso) ledger,
       (games.filter (·.is_final)).map (rowOf sport_up emap),
       games.filter
         (fun g => g.is_final && (rowOf sport_up emap g).excite.isNone)⟩ := by
  simpa using process_games_go sport_up emap now_iso games ⟨ledger, [], []⟩

/-- `process_league`, rewritten as one decision tree over the outcome of the
per-game phase. -/
theorem process_league_eq (sport : String) (games : List Game) (emap : EMap)
    (now_iso : String) (ledger : Ledger) :
    process_league sport games emap now_iso ledger =
      (match (process_games (pyUpper sport) emap now_iso games ledger).rows with
       | [] => (process_games (pyUpper sport) emap now_iso games ledger).ledger
       | r :: rs =>
         if (r :: rs).any (·.auto) then
           (process_games (pyUpper sport) emap now_iso games ledger).ledger
         else if games.all (·.is_final) = false then
           (process_games (pyUpper sport) emap now_iso games ledger).ledger
         else if
             (process_games (pyUpper sport) emap now_iso games ledger).missing
               ≠ [] then
           (process_games (pyUpper sport) emap now_iso games ledger).ledger
         else if
             already_posted
               (process_games (pyUpper sport) emap now_iso games ledger).ledger
               (bestRow r rs).game.id then
           (process_games (pyUpper sport) emap now_iso games ledger).ledger
         else
           mark_posted
             (process_games (pyUpper sport) emap now_iso games ledger).ledger
             (bestRow r rs).game.id now_iso) := by
  by_cases hg : games = []
  · subst hg
    rfl
  · simp only [process_league, if_neg hg]

/-- When some final game still lacks excitement data, the fallback stage
leaves the ledger of the per-game phase untouched. -/
theorem process_league_defer (sport now_iso : String) (games : List Game)
    (emap : EMap) (ledger : Ledger)
    (h : (process_games (pyUpper sport) emap now_iso games ledger).missing
      ≠ []) :
    process_league sport games emap now_iso ledger
      = (process_games (pyUpper sport) emap now_iso games ledger).ledger := by
  rw [process_league_eq]
  rcases hrows :
      (process_games (pyUpper sport) emap now_iso games ledger).rows
    with _ | ⟨r, rs⟩
  · rfl
  · simp only
    by_cases hauto : (r :: rs).any (·.auto) = true
    · simp [hauto]
    · by_cases hfin : games.all (·.is_final) = false
      · simp [hauto, hfin]
      · simp [hauto, hfin, h]

/-- When some game of the date is not final yet, the fallback stage leaves
the ledger of the per-game phase untouched. -/
theorem process_league_wait_final (sport now_iso : String)
    (games : List Game) (emap : EMap) (ledger : Ledger)
    (h : games.any (fun g => !g.is_final) = true) :
    process_league sport games emap now_iso ledger
      = (process_games (pyUpper sport) emap now_iso games ledger).ledger := by
  have hfin : games.all (·.is_final) = false := by
    rw [List.any_eq_true] at h
    obtain ⟨g, hgm, hgf⟩ := h
    cases hall : games.all (·.is_final) with
    | false => rfl
    | true =>
      rw [List.all_eq_true] at hall
      have := hall g hgm
      simp only [Bool.not_eq_true'] at hgf
      rw [hgf] at this
      cases this
  rw [process_league_eq]
  rcases hrows :
      (process_games (pyUpper sport) emap now_iso games ledger).rows
    with _ | ⟨r, rs⟩
  · rfl
  · simp only
    by_cases hauto : (r :: rs).any (·.auto) = true
    · simp [hauto]
    · simp [hauto, hfin]

theorem bestRow_cons (r x : Row) (xs : List Row) :
    bestRow r (x :: xs) = bestRow (if r.score < x.score then x else r) xs :=
  rfl

theorem bestRow_mem (r : Row) (rs : List Row) : bestRow r rs ∈ r :: rs := by
  induction rs generalizing r with
  | nil => simp [bestRow]
  | cons x xs ih =>
    rw [bestRow_cons]
    have h := ih (if r.score < x.score then x else r)
    rcases List.mem_cons.mp h with heq | hmem
    · rw [heq]
      split_ifs <;> simp
    · exact List.mem_cons_of_mem _ (List.mem_cons_of_mem _ hmem)

theorem bestRow_max (r : Row) (rs : List Row) :
    ∀ x ∈ r :: rs, x.score ≤ (bestRow r rs).score := by
  induction rs generalizing r with
  | nil =>
    intro x hx
    rw [List.mem_singleton] at hx
    subst hx
    exact le_refl _
  | cons y ys ih =>
    intro x hx
    rw [bestRow_cons]
    by_cases hc : r.score < y.score
    · rw [if_pos hc]
      have hok := ih y
      rcases List.mem_cons.mp hx with rfl | hx'
      · exact le_trans (le_of_lt hc) (hok y (List.mem_cons_self _ _))
      · exact hok x hx'
    · rw [if_neg hc]
      have hok := ih r
      rcases List.mem_cons.mp hx with rfl | hx'
      · exact hok x (List.mem_cons_self _ _)
      · rcases List.mem_cons.mp hx' with rfl | hx''
        · exact le_trans (le_of_not_lt hc) (hok r (List.mem_cons_self _ _))
        · exact hok x (List.mem_cons_of_mem _ hx'')

/-- C3: the best-of-night fallback defers whenever some game is not final or
some final game lacks excitement data (the per-game ledger is returned
unchanged); when at least one row was scored, none fired the auto rule, all
games are final and none is missing excitement, it marks exactly the
highest-scoring game (once — if that game is already in the ledger it is not
re-marked). -/
theorem fallback_gating (sport now_iso : String) (games : List Game)
    (emap : EMap) (ledger : Ledger) :
    ((games.any (fun g => !g.is_final) = true
        ∨ (process_games (pyUpper sport) emap now_iso games ledger).missing
            ≠ [])
      → process_league sport games emap now_iso ledger
          = (process_games (pyUpper sport) emap now_iso games ledger).ledger)
    ∧ (∀ r rs,
        (process_games (pyUpper sport) emap now_iso games ledger).rows
            = r :: rs →
        (r :: rs).any (·.auto) = false →
        games.all (·.is_final) = true →
        (process_games (pyUpper sport) emap now_iso games ledger).missing
            = [] →
        already_posted
            (process_games (pyUpper sport) emap now_iso games ledger).ledger
            (bestRow r rs).game.id = false →
        (process_league sport games emap now_iso ledger
            = mark_posted
                (process_games (pyUpper sport) emap now_iso games ledger).ledger
                (bestRow r rs).game.id now_iso
          ∧ bestRow r rs ∈ r :: rs
          ∧ ∀ x ∈ r :: rs, x.score ≤ (bestRow r rs).score))
    ∧ (∀ r rs,
        (process_games (pyUpper sport) emap now_iso games ledger).rows
            = r :: rs →
        (r :: rs).any (·.auto) = false →
        games.all (·.is_final) = true →
        (process_games (pyUpper sport) emap now_iso games ledger).missing
            = [] →
        already_posted
            (process_games (pyUpper sport) emap now_iso games ledger).ledger
            (bestRow r rs).game.id = true →
        process_league sport games emap now_iso ledger
          = (process_games (pyUpper sport) emap now_iso games ledger).ledger)
    := by
  refine ⟨?_, ?_, ?_⟩
  · rintro (h | h)
    · exact process_league_wait_final sport now_iso games emap ledger h
    · exact process_league_defer sport now_iso games emap ledger h
  · intro r rs hrows hauto hall hmiss hbest
    refine ⟨?_, bestRow_mem r rs, bestRow_max r rs⟩
    rw [process_league_eq, hrows]
    simp [hauto, hall, hmiss, hbest]
  · intro r rs hrows hauto hall hmiss hbest
    rw [process_league_eq, hrows]
    simp [hauto, hall, hmiss, hbest]

theorem fallback_gating_witness :
    process_league "NBA"
      [⟨"e1", some "Hawks", some "Celtics", none, true⟩,
       ⟨"e2", some "Bulls", some "Knicks", none, true⟩]
      [(("ATL", "BOS"), 0.01), (("CHI", "NYK"), 0.05)] "T" []
      = [("e2", "T")] := by
  have hup : pyUpper "NBA" = "NBA" := by decide
  have hs1 : (score_game "NBA" (0.01 : ℚ)).score = 41 := by
    rw [sg_nba]
    norm_num [_score_nba, piecewise_score, clamp40_100, pyRound,
      NBA_E_MIN, NBA_E_MED, NBA_E_90, NBA_E_99, NBA_E_MAX]
  have hs2 : (score_game "NBA" (0.05 : ℚ)).score = 49 := by
    rw [sg_nba]
    norm_num [_score_nba, piecewise_score, clamp40_100, pyRound,
      NBA_E_MIN, NBA_E_MED, NBA_E_90, NBA_E_99, NBA_E_MAX]
  have hr1 : rowOf (pyUpper "NBA")
      [(("ATL", "BOS"), 0.01), (("CHI", "NYK"), 0.05)]
      ⟨"e1", some "Hawks", some "Celtics", none, true⟩
      = ⟨⟨"e1", some "Hawks", some "Celtics", none, true⟩, 41,
          some (0.01 : ℚ), false⟩ := by
    rw [hup]
    simp only [rowOf, Option.getD_some, Option.getD_none,
      show List.lookup "Hawks" NAME_TO_INPRED = some "ATL" from rfl,
      show List.lookup "Celtics" NAME_TO_INPRED = some "BOS" from rfl,
      show List.lookup ("ATL", "BOS")
        [(("ATL", "BOS"), (0.01 : ℚ)), (("CHI", "NYK"), 0.05)]
        = some (0.01 : ℚ) from rfl]
    rw [show ((0.01 : ℚ)) = 0.01 from rfl, hs1]
    simp [should_auto_post, pyStrip]
  have hr2 : rowOf (pyUpper "NBA")
      [(("ATL", "BOS"), 0.01), (("CHI", "NYK"), 0.05)]
      ⟨"e2", some "Bulls", some "Knicks", none, true⟩
      = ⟨⟨"e2", some "Bulls", some "Knicks", none, true⟩, 49,
          some (0.05 : ℚ), false⟩ := by
    rw [hup]
    simp only [rowOf, Option.getD_some, Option.getD_none,
      show List.lookup "Bulls" NAME_TO_INPRED = some "CHI" from rfl,
      show List.lookup "Knicks" NAME_TO_INPRED = some "NYK" from rfl,
      show List.lookup ("CHI", "NYK")
        [(("ATL", "BOS"), (0.01 : ℚ)), (("CHI", "NYK"), 0.05)]
        = some (0.05 : ℚ) from rfl]
    rw [hs2]
    simp [should_auto_post, pyStrip]
  have hled : (process_games (pyUpper "NBA")
      [(("ATL", "BOS"), 0.01), (("CHI", "NYK"), 0.05)] "T"
      [⟨"e1", some "Hawks", some "Celtics", none, true⟩,
       ⟨"e2", some "Bulls", some "Knicks", none, true⟩] []).ledger = [] := by
    rw [process_games_parts]
    simp [markStep, hr1, hr2, already_posted]
  have hrows : (process_games (pyUpper "NBA")
      [(("ATL", "BOS"), 0.01), (("CHI", "NYK"), 0.05)] "T"
      [⟨"e1", some "Hawks", some "Celtics", none, true⟩,
       ⟨"e2", some "Bulls", some "Knicks", none, true⟩] []).rows
      = rowOf (pyUpper "NBA")
          [(("ATL", "BOS"), 0.01), (("CHI", "NYK"), 0.05)]
          ⟨"e1", some "Hawks", some "Celtics", none, true⟩
        :: [rowOf (pyUpper "NBA")
          [(("ATL", "BOS"), 0.01), (("CHI", "NYK"), 0.05)]
          ⟨"e2", some "Bulls", some "Knicks", none, true⟩] := by
    rw [process_games_parts]
    simp
  have hmiss : (process_games (pyUpper "NBA")
      [(("ATL", "BOS"), 0.01), (("CHI", "NYK"), 0.05)] "T"
      [⟨"e1", some "Hawks", some "Celtics", none, true⟩,
       ⟨"e2", some "Bulls", some "Knicks", none, true⟩] []).missing = [] := by
    rw [process_games_parts]
    simp [hr1, hr2]
  have hauto : (rowOf (pyUpper "NBA")
          [(("ATL", "BOS"), 0.01), (("CHI", "NYK"), 0.05)]
          ⟨"e1", some "Hawks", some "Celtics", none, true⟩
        :: [rowOf (pyUpper "NBA")
          [(("ATL", "BOS"), 0.01), (("CHI", "NYK"), 0.05)]
          ⟨"e2", some "Bulls", some "Knicks", none, true⟩]).any (·.auto)
      = false := by
    rw [hr1, hr2]
    rfl
  have hbest : already_posted ((process_games (pyUpper "NBA")
      [(("ATL", "BOS"), 0.01), (("CHI", "NYK"), 0.05)] "T"
      [⟨"e1", some "Hawks", some "Celtics", none, true⟩,
       ⟨"e2", some "Bulls", some "Knicks", none, true⟩] []).ledger)
      ((bestRow (rowOf (pyUpper "NBA")
          [(("ATL", "BOS"), 0.01), (("CHI", "NYK"), 0.05)]
          ⟨"e1", some "Hawks", some "Celtics", none, true⟩)
        [rowOf (pyUpper "NBA")
          [(("ATL", "BOS"), 0.01), (("CHI", "NYK"), 0.05)]
          ⟨"e2", some "Bulls", some "Knicks", none, true⟩]).game.id)
      = false := by
    rw [hled, hr1, hr2]
    rfl
  have hmain := (fallback_gating "NBA" "T"
      [⟨"e1", some "Hawks", some "Celtics", none, true⟩,
       ⟨"e2", some "Bulls", some "Knicks", none, true⟩]
      [(("ATL", "BOS"), 0.01), (("CHI", "NYK"), 0.05)] []).2.1
      _ _ hrows hauto rfl hmiss hbest
  rw [hmain.1, hled, hr1, hr2]
  rfl

theorem rowOf_score_of_none {sport_up : String} {emap : EMap} {g : Game}
    (h : (rowOf sport_up emap g).excite = none) :
    (rowOf sport_up emap g).score = (score_game sport_up 0).score := by
  simp only [rowOf] at h ⊢
  rw [h]
  rfl

/-- C4 counterexample -/
theorem awaiting_data_counterexample :
    (rowOf (pyUpper "NBA") []
        ⟨"e9", some "Hawks", some "Celtics", some "ESPN", true⟩).excite = none
    ∧ (rowOf (pyUpper "NBA") []
        ⟨"e9", some "Hawks", some "Celtics", some "ESPN", true⟩).score
        = (score_game (pyUpper "NBA") 0).score
    ∧ (rowOf (pyUpper "NBA") []
        ⟨"e9", some "Hawks", some "Celtics", some "ESPN", true⟩).score = 40
    ∧ already_posted
        (process_league "NBA"
          [⟨"e9", some "Hawks", some "Celtics", some "ESPN", true⟩] [] "T" [])
        "e9" = true := by
  have hup : pyUpper "NBA" = "NBA" := by decide
  have hs0 : (score_game "NBA" 0).score = 40 := by
    rw [sg_nba]
    norm_num [_score_nba, piecewise_score, clamp40_100, pyRound,
      NBA_E_MIN, NBA_E_MED, NBA_E_90, NBA_E_99, NBA_E_MAX]
  have hrow : rowOf (pyUpper "NBA") []
      ⟨"e9", some "Hawks", some "Celtics", some "ESPN", true⟩
      = ⟨⟨"e9", some "Hawks", some "Celtics", some "ESPN", true⟩, 40, none,
          true⟩ := by
    rw [hup]
    simp only [rowOf, Option.getD_some, Option.getD_none,
      show List.lookup "Hawks" NAME_TO_INPRED = some "ATL" from rfl,
      show List.lookup "Celtics" NAME_TO_INPRED = some "BOS" from rfl,
      show List.lookup ("ATL", "BOS") ([] : EMap) = none from rfl]
    rw [hs0]
    simp [should_auto_post, show pyStrip "ESPN" = "ESPN" from by decide]
  have hrows : (process_games (pyUpper "NBA") [] "T"
      [⟨"e9", some "Hawks", some "Celtics", some "ESPN", true⟩] []).rows
      = [rowOf (pyUpper "NBA") []
          ⟨"e9", some "Hawks", some "Celtics", some "ESPN", true⟩] := by
    rw [process_games_parts]
    simp
  have hled : (process_games (pyUpper "NBA") [] "T"
      [⟨"e9", some "Hawks", some "Celtics", some "ESPN", true⟩] []).ledger
      = [("e9", "T")] := by
    rw [process_games_parts]
    simp [markStep, hrow, already_posted, mark_posted]
  refine ⟨rfl, rfl, by rw [hrow], ?_⟩
  rw [process_league_eq, hrows]
  simp [hrow, hled, already_posted]

/-- C4 amended: a finalized event lacking excitement data is recorded as
awaiting data and blocks the fallback for the whole sport+date, but the
orchestrator still scores it from excitement 0.0 (and, per the auto rule,
may post and mark it — see the counterexample). -/
theorem awaiting_data_amended (sport now_iso : String) (games : List Game)
    (emap : EMap) (ledger : Ledger) (g : Game)
    (hmem : g ∈ games) (hfin : g.is_final = true)
    (hnone : (rowOf (pyUpper sport) emap g).excite = none) :
    g ∈ (process_games (pyUpper sport) emap now_iso games ledger).missing
    ∧ rowOf (pyUpper sport) emap g
        ∈ (process_games (pyUpper sport) emap now_iso games ledger).rows
    ∧ (rowOf (pyUpper sport) emap g).score
        = (score_game (pyUpper sport) 0).score
    ∧ process_league sport games emap now_iso ledger
        = (process_games (pyUpper sport) emap now_iso games ledger).ledger := by
  have hmissmem :
      g ∈ (process_games (pyUpper sport) emap now_iso games ledger).missing := by
    rw [process_games_parts]
    show g ∈ games.filter
      (fun g => g.is_final && (rowOf (pyUpper sport) emap g).excite.isNone)
    exact List.mem_filter.mpr ⟨hmem, by simp [hfin, hnone]⟩
  refine ⟨hmissmem, ?_, rowOf_score_of_none hnone, ?_⟩
  · rw [process_games_parts]
    show rowOf (pyUpper sport) emap g
      ∈ (games.filter (·.is_final)).map (rowOf (pyUpper sport) emap)
    exact List.mem_map_of_mem _ (List.mem_filter.mpr ⟨hmem, hfin⟩)
  · apply process_league_defer
    intro hcontra
    rw [hcontra] at hmissmem
    cases hmissmem

theorem awaiting_data_amended_witness :
    (⟨"e9", some "Hawks", some "Celtics", none, true⟩ : Game)
      ∈ (process_games (pyUpper "NBA") [] "T"
          [⟨"e9", some "Hawks", some "Celtics", none, true⟩] []).missing
    ∧ process_league "NBA"
        [⟨"e9", some "Hawks", some "Celtics", none, true⟩] [] "T" []
      = (process_games (pyUpper "NBA") [] "T"
          [⟨"e9", some "Hawks", some "Celtics", none, true⟩] []).ledger := by
  have h := awaiting_data_amended "NBA" "T"
    [⟨"e9", some "Hawks", some "Celtics", none, true⟩] [] []
    ⟨"e9", some "Hawks", some "Celtics", none, true⟩
    (List.mem_singleton.mpr rfl) rfl rfl
  exact ⟨h.1, h.2.2.2⟩
